import Mathlib

/-!
# Verification of `ulog_scraper` (spider `log_downloader.py`)

Shallow embedding of the workflow logic of
`src/ulog_scraper/spiders/log_downloader.py` together with a model of the
Config Parser described in the specification (that component has no source
under `src/`).  Strings that the Python code manipulates character by
character are modelled as `List Char`; `String` is used where only whole
values are compared.  Side effects (file writes, screenshots, browser
actions) are modelled as explicit event lists threaded through the
functions.
-/

namespace UlogScraper

/-! ## Character-list utilities shared by the models -/

/-- Whitespace test used by trimming (models Python `str.strip`). -/
def isWS (c : Char) : Bool := c.isWhitespace

/-- Drop leading whitespace. -/
def trimLeft (s : List Char) : List Char := s.dropWhile isWS

/-- Drop leading and trailing whitespace (models Python `str.strip()`). -/
def trimChars (s : List Char) : List Char :=
  ((s.dropWhile isWS).reverse.dropWhile isWS).reverse

/-- Split a character list at the first occurrence of `c`
(models Python `str.split(c, 1)` when the separator occurs;
`none` when it does not occur). -/
def splitFirst (c : Char) : List Char → Option (List Char × List Char)
  | [] => none
  | x :: xs =>
    if x = c then some ([], xs)
    else
      match splitFirst c xs with
      | none => none
      | some (a, b) => some (x :: a, b)

/-- Split a character list at every occurrence of `c`
(models Python `str.split(c)`; always returns a non-empty list). -/
def splitAll (c : Char) : List Char → List (List Char)
  | [] => [[]]
  | x :: xs =>
    match splitAll c xs with
    | [] => [[]]
    | h :: t => if x = c then [] :: h :: t else (x :: h) :: t

/-- Substring test: `containsSub pat s` is true when `pat` occurs contiguously inside `s`
(models Python `pat in s` and the CSS attribute substring match `[href*=..]`). -/
def containsSub (pat : List Char) : List Char → Bool
  | [] => pat.isEmpty
  | c :: rest => pat.isPrefixOf (c :: rest) || containsSub pat rest

/-- Substring containment lifted to `String`. -/
def containsSubStr (pat s : String) : Bool := containsSub pat.toList s.toList

/-- ASCII lowering of a character list (models Python `str.lower()` on the
ASCII element texts involved here). -/
def lowerChars (s : List Char) : List Char := s.map Char.toLower

/-! ## Config Parser (C2)

Modelled from the spec: the Config Parser component
(`parseConfig(path) -> list<VehicleJob>`, spec §4.1) has no source file under
`src/`; only `log_downloader.py` is present.  The model follows the spec's
words: skip lines empty after trimming and lines whose first non-whitespace
character is `#`; split the remaining line on the first `:`; skip the line
with a warning when no `:` is present; split the date part on the first `-`;
skip with a warning when no `-` is present; trim all three fields.  The
function is total: malformed lines yield a `warned` outcome, never an error.
-/

/-- One parsed config entry, spec §3. -/
structure VehicleJob where
  name : List Char
  startDate : List Char
  endDate : List Char
deriving DecidableEq, Repr

/-- Outcome of parsing one config line: a job, a silent skip
(blank/comment), or a skip with a warning (malformed line). -/
inductive LineResult where
  | job (j : VehicleJob)
  | skipped
  | warned
deriving DecidableEq, Repr

/-- Modelled from the spec: parse one config line (spec §4.1). -/
def parseLine (line : List Char) : LineResult :=
  if trimChars line = [] then .skipped
  else if (trimLeft line).head? = some '#' then .skipped
  else
    match splitFirst ':' line with
    | none => .warned
    | some (vehiclePart, datePart) =>
      match splitFirst '-' datePart with
      | none => .warned
      | some (s, e) => .job ⟨trimChars vehiclePart, trimChars s, trimChars e⟩

/-- Modelled from the spec: parse a whole config file, given as its list of
lines; collects the successfully parsed jobs in file order (spec §4.1). -/
def parseConfig (lines : List (List Char)) : List VehicleJob :=
  lines.filterMap fun l =>
    match parseLine l with
    | .job j => some j
    | _ => none

/-! ## Spider construction (C5, C9)

Embeds `LogDownloaderSpider.__init__` (log_downloader.py lines 57-67):

    self.username = username or os.environ.get('AUTERION_USERNAME')
    self.password = password or os.environ.get('AUTERION_PASSWORD')
    if not self.username or not self.password:
        raise ValueError("Username and password must be provided")
    self.driver = webdriver.Chrome()

`Option String` models a value that may be absent (`None` / unset
environment variable).  The browser driver is created only after the
credential check, so an `.ok` result is the only carrier of
`driverInitialized`.
-/

/-- Python `a or b` on string-or-None values: `a` is kept only when it is
present and non-empty (Python truthiness of strings). -/
def pyOr (a b : Option String) : Option String :=
  match a with
  | some s => if s.isEmpty then b else some s
  | none => b

/-- Python truthiness of a string-or-None value. -/
def truthy : Option String → Bool
  | none => false
  | some s => !s.isEmpty

/-- State of a successfully constructed spider. -/
structure SpiderState where
  username : String
  password : String
  driverInitialized : Bool
deriving DecidableEq, Repr

/-- Embeds `__init__` credential handling: arguments fall back to the
environment via Python `or`; empty/missing credentials raise `ValueError`
before `webdriver.Chrome()` runs. -/
def spiderInit (argU argP envU envP : Option String) :
    Except String SpiderState :=
  let u := pyOr argU envU
  let p := pyOr argP envP
  if truthy u && truthy p then
    .ok { username := u.getD "", password := p.getD "", driverInitialized := true }
  else
    .error "Username and password must be provided"

/-! ## Ordered locator probing (C8)

Embeds the selector data and the probing loop of `perform_login` step 1
(log_downloader.py lines 200-219).
-/

/-- Selenium locator strategy. -/
inductive LocatorKind where
  | css
  | xpath
deriving DecidableEq, Repr

/-- A locator: strategy plus selector string. -/
structure Locator where
  kind : LocatorKind
  selector : String
deriving DecidableEq, Repr

/-- The ordered selector list for the initial login button
(`selectors_to_try`, lines 201-205). -/
def loginButtonSelectors : List Locator :=
  [⟨.css, "button.button-primary"⟩,
   ⟨.xpath, "//button[contains(text(), 'Login')]"⟩,
   ⟨.xpath, "//button[normalize-space()='Login']"⟩]

/-- The probing loop (lines 207-214): try each locator in order; the first
locator whose `find_elements` result is non-empty wins and its first element
is taken. -/
def firstMatch {α : Type} (probe : Locator → List α) : List Locator → Option α
  | [] => none
  | s :: rest =>
    match probe s with
    | [] => firstMatch probe rest
    | e :: _ => some e

/-- Embeds step 1 of `perform_login` (lines 200-219): probe
`loginButtonSelectors` in order; when nothing matches, the step raises
`Exception("Could not find login button")`. -/
def findLoginButton {α : Type} (probe : Locator → List α) : Except String α :=
  match firstMatch probe loginButtonSelectors with
  | none => .error "Could not find login button"
  | some e => .ok e

/-! ## The log-tab predicate (C7)

Embeds step 5 of `navigate_to_vehicles` (log_downloader.py lines 644-659):
for each candidate selector's element list in order, the first displayed
element whose lowered text contains `"log"` but none of `"login"`,
`"logout"`, `"catalog"` is chosen.
-/

/-- A located DOM element, reduced to the attributes the code inspects. -/
structure UiElem where
  text : List Char
  displayed : Bool
deriving DecidableEq, Repr

/-- The per-element test of lines 649-652: displayed, and the lowercased
text contains `"log"` but none of the false-positive substrings. -/
def isLogTab (e : UiElem) : Bool :=
  e.displayed &&
    (let t := lowerChars e.text
     containsSub "log".toList t &&
       !(containsSub "login".toList t || containsSub "logout".toList t ||
         containsSub "catalog".toList t))

/-- Scan one selector's element list for the first element passing
`isLogTab` (inner loop of lines 647-655). -/
def scanLogTab : List UiElem → Option UiElem
  | [] => none
  | e :: es => if isLogTab e then some e else scanLogTab es

/-- Outer loop of lines 645-657: `groups` is the list of element lists the
successive candidate selectors return; the first group containing a passing
element supplies the clicked element. -/
def findLogTab : List (List UiElem) → Option UiElem
  | [] => none
  | g :: gs =>
    match scanLogTab g with
    | some e => some e
    | none => findLogTab gs

/-! ## `navigate_to_vehicles` control flow (C4)

Embeds the nested-if structure of `navigate_to_vehicles`
(log_downloader.py lines 398-805).  A `NavProbe` records, per step, whether
the step's element search finds a usable element.  Step numbering follows
spec §4.3: step 2 = search input, 3 = vehicle (DV21) link, 4 = All Flights
link, 5 = flight (MXNT) row, 6 = log tab, 7 = View Analytics, 8 = Download
log.  A missing search input (step 2) only warns and continues (line 478);
a missing element in steps 3-8 warns and falls through to the footer
(lines 791-801), which sets `keep_browser_open` and writes the sentinel
file in every case.  None of these branches raises: the method's body is
wrapped in `try/except` which logs and swallows (lines 803-805), so the
function is total.
-/

/-- Which element searches succeed during one `navigate_to_vehicles` run. -/
structure NavProbe where
  search : Bool
  vehicleLink : Bool
  allFlights : Bool
  flightRow : Bool
  logTab : Bool
  analytics : Bool
  download : Bool
deriving DecidableEq, Repr

/-- Observable outcome of one `navigate_to_vehicles` run: the element-search
steps attempted in order, the warnings logged, and whether the footer
(`keep_browser_open := True`; sentinel write) ran. -/
structure NavResult where
  attempted : List Nat
  warnings : List String
  keptOpen : Bool
  sentinelWritten : Bool
deriving DecidableEq, Repr

/-- Warning of line 478. -/
def wSearch : String := "No search input found, skipping search"
/-- Warning of line 789. -/
def wVehicleLink : String := "Could not find DV21 link, will not navigate to details page"
/-- Warning of line 787. -/
def wAllFlights : String := "Could not find All Flights link"
/-- Warning of line 785. -/
def wFlightRow : String := "Could not find MXNT flight entry"
/-- Warning of line 783. -/
def wLogTab : String := "Could not find log button"
/-- Warning of line 781. -/
def wAnalytics : String := "Could not find View Analytics button"
/-- Warning of line 779. -/
def wDownload : String := "Could not find Download log button"

/-- Embeds the nested conditionals of `navigate_to_vehicles`
(lines 444-801). -/
def navigateToVehicles (p : NavProbe) : NavResult :=
  let searchWarnings := if p.search then [] else [wSearch]
  let (att, ws) :=
    if p.vehicleLink then
      if p.allFlights then
        if p.flightRow then
          if p.logTab then
            if p.analytics then
              if p.download then
                ([2, 3, 4, 5, 6, 7, 8], ([] : List String))
              else
                ([2, 3, 4, 5, 6, 7, 8], [wDownload])
            else
              ([2, 3, 4, 5, 6, 7], [wAnalytics])
          else
            ([2, 3, 4, 5, 6], [wLogTab])
        else
          ([2, 3, 4, 5], [wFlightRow])
      else
        ([2, 3, 4], [wAllFlights])
    else
      ([2, 3], [wVehicleLink])
  { attempted := att
    warnings := searchWarnings ++ ws
    keptOpen := true
    sentinelWritten := true }

/-! ## Run model: `start_requests`, `perform_login`, `closed` (C1, C6, C10)

Embeds the control flow of `start_requests` (lines 130-177),
the tail of `perform_login` (lines 365-396) and `closed` (lines 114-128).

`perform_login` has exactly two kinds of outcome: every failing path raises
(re-raised at line 396) and the single succeeding path invokes
`navigate_to_vehicles` (line 380), sets `keep_browser_open` (line 383) and
returns `True` (line 386) — it never returns a falsy value.  In
`start_requests`, a `True` result sets `keep_browser_open` again, writes the
sentinel file `browser_open.txt` (lines 161-164, in the current working
directory) and returns `[]`; `self.navigate_to_logs()` (line 170) sits on
the branch requiring a falsy result.  A raise is caught at line 172 and
`[]` is returned.  `closed` quits the browser unless `keep_browser_open`
is set.
-/

/-- External circumstances of one run: whether `perform_login` raises,
whether the body of `navigate_to_vehicles` hits an exception (caught at
line 803 before its footer), and `driver.current_url` at sentinel-write
time. -/
structure RunEnv where
  loginRaises : Bool
  navRaises : Bool
  currentUrl : String
deriving DecidableEq, Repr

/-- Sentinel content written by `start_requests` (lines 162-164). -/
def sentinelSR (url : String) : String :=
  "Browser remains open with session at: " ++ url ++ "\n" ++
  "Script has finished execution, but browser should remain open.\n" ++
  "Close browser manually when finished examining."

/-- Sentinel content written by `navigate_to_vehicles` (lines 796-799). -/
def sentinelNav (url : String) : String :=
  "Browser remains open with session at: " ++ url ++ "\n" ++
  "Navigation completed through: Vehicles page -> DV21 details -> All Flights -> MXNT flight -> Logs -> View Analytics -> Download log\n" ++
  "Script has finished execution, but browser should remain open.\n" ++
  "Close browser manually when finished examining."

/-- Path of the sentinel file (lines 161 and 795): a bare filename in the
current working directory. -/
def sentinelPath : String := "browser_open.txt"

/-- Path of the run log configured by `setup_logger` (line 80). -/
def runLogPath : String := "logs/scraper.log"

/-- Path test: `startsWithPath pre s` holds when path `s` lies under the textual
path `pre` (plain string prefixing, via character lists). -/
def startsWithPath (pre s : String) : Bool := pre.toList.isPrefixOf s.toList

/-- Observable outcome of a full run. -/
structure RunResult where
  loginReturnedTrue : Bool
  navigateToVehiclesInvoked : Bool
  navigateToLogsInvoked : Bool
  keepBrowserOpen : Bool
  writes : List (String × String)
  requests : List String
  browserQuit : Bool
deriving DecidableEq, Repr

/-- Embeds the tail of `perform_login` (lines 365-396): either the login
wait raises (and the raise propagates), or `navigate_to_vehicles` runs —
writing the sentinel unless its body raised first — `keep_browser_open` is
set and `True` is returned. -/
def performLoginRun (env : RunEnv) :
    (List (String × String) × Bool) × Option Bool :=
  if env.loginRaises then
    (([], false), none)
  else
    let navWrites :=
      if env.navRaises then [] else [(sentinelPath, sentinelNav env.currentUrl)]
    ((navWrites, true), some true)

/-- Embeds `start_requests` (lines 130-177). -/
def startRequestsRun (env : RunEnv) : RunResult :=
  match performLoginRun env with
  | ((loginWrites, keepSet), some loginSuccess) =>
    if loginSuccess then
      { loginReturnedTrue := true
        navigateToVehiclesInvoked := true
        navigateToLogsInvoked := false
        keepBrowserOpen := true
        writes := loginWrites ++ [(sentinelPath, sentinelSR env.currentUrl)]
        requests := []
        browserQuit := false }
    else
      -- Line 170: `return self.navigate_to_logs()` — requires a falsy
      -- `login_success`, which `perform_login` never produces.
      { loginReturnedTrue := false
        navigateToVehiclesInvoked := true
        navigateToLogsInvoked := true
        keepBrowserOpen := keepSet
        writes := loginWrites
        requests := []
        browserQuit := false }
  | ((loginWrites, keepSet), none) =>
    -- Lines 172-177: exception caught, error screenshot, `[]` returned.
    { loginReturnedTrue := false
      navigateToVehiclesInvoked := false
      navigateToLogsInvoked := false
      keepBrowserOpen := keepSet
      writes := loginWrites
      requests := []
      browserQuit := false }

/-- Embeds `closed` (lines 114-128): quits the browser unless
`keep_browser_open` is set. -/
def closedRun (r : RunResult) : RunResult :=
  if r.keepBrowserOpen then r else { r with browserQuit := true }

/-- One full run: `start_requests` followed by the `closed` handler. -/
def fullRun (env : RunEnv) : RunResult := closedRun (startRequestsRun env)

/-! ## Log Retrieval: `parse_logs_page` + `save_log_file` (C3)

Embeds `parse_logs_page` (log_downloader.py lines 913-943) and
`save_log_file` (lines 945-973).  `parse_logs_page` collects every match of
the CSS query `a[href*=".log"]::attr(href)` — one entry per anchor
occurrence, duplicates included — then, per link, resolves it against the
page URL when it does not start with `"http"` and issues one fetch whose
response is handled by `save_log_file`.  `save_log_file` writes the response
body verbatim to `logs/downloaded/<basename>` where the basename is
`response.url.split('/')[-1]`, and returns
`{filename, path, url, size := len(body)}`.

The HTTP layer is the black box of spec §1: `fetch : String → List Nat`
returns a body as its list of bytes, and `urljoin` is the (external)
relative-URL resolver.  File writes are modelled as an ordered event list.
-/

/-- A logs listing page: its URL and the `href` attribute of each anchor,
in document order. -/
structure LogsPage where
  url : String
  hrefs : List String
deriving DecidableEq, Repr

/-- Metadata returned by `save_log_file` (lines 968-973). -/
structure SavedFile where
  filename : String
  path : String
  url : String
  size : Nat
deriving DecidableEq, Repr

/-- The links `parse_logs_page` discovers (line 927): every anchor href
containing `".log"`, one entry per occurrence. -/
def discoveredLogLinks (p : LogsPage) : List String :=
  p.hrefs.filter fun h => containsSubStr ".log" h

/-- Link resolution of lines 936-937: resolve against the page URL only
when the link does not start with `"http"`. -/
def resolveLink (urljoin : String → String → String)
    (pageUrl link : String) : String :=
  if link.startsWith "http" then link else urljoin pageUrl link

/-- Basename extraction `response.url.split('/')[-1]` (line 959). -/
def urlBasename (url : String) : String :=
  ⟨(splitAll '/' url.toList).getLastD []⟩

/-- Embeds `save_log_file` (lines 945-973): write the body at
`logs/downloaded/<basename>` and return the metadata record. -/
def saveLogFile (body : List Nat) (url : String) :
    (String × List Nat) × SavedFile :=
  let filename := urlBasename url
  let path := "logs/downloaded/" ++ filename
  ((path, body),
   { filename := filename, path := path, url := url, size := body.length })

/-- One iteration of the loop in `parse_logs_page` (lines 934-943) followed
by `save_log_file`: resolve the link, fetch it, record the write and the
metadata. -/
def fetchStep (urljoin : String → String → String)
    (fetch : String → List Nat) (pageUrl : String)
    (acc : List SavedFile × List (String × List Nat)) (h : String) :
    List SavedFile × List (String × List Nat) :=
  let url := resolveLink urljoin pageUrl h
  let ws := saveLogFile (fetch url) url
  (acc.1 ++ [ws.2], acc.2 ++ [ws.1])

/-- Embeds the single-vehicle Log Retrieval pipeline: discover the `.log`
hrefs, resolve each, fetch each, save each.  Returns the `SavedFile`
records in discovery order together with the file writes in order. -/
def fetchLogs (urljoin : String → String → String)
    (fetch : String → List Nat) (p : LogsPage) :
    List SavedFile × List (String × List Nat) :=
  (discoveredLogLinks p).foldl (fetchStep urljoin fetch p.url) ([], [])

/-- The `SavedFile` record produced for one discovered href. -/
def savedFileFor (urljoin : String → String → String)
    (fetch : String → List Nat) (pageUrl h : String) : SavedFile :=
  (saveLogFile (fetch (resolveLink urljoin pageUrl h))
    (resolveLink urljoin pageUrl h)).2

/-- The file write produced for one discovered href. -/
def writeFor (urljoin : String → String → String)
    (fetch : String → List Nat) (pageUrl h : String) : String × List Nat :=
  (saveLogFile (fetch (resolveLink urljoin pageUrl h))
    (resolveLink urljoin pageUrl h)).1

/-! ## Helper lemmas -/

theorem dropWhile_append_cons (p : Char → Bool) (x : Char) (hx : p x = false)
    (l₁ l₂ : List Char) :
    List.dropWhile p (l₁ ++ x :: l₂) = List.dropWhile p l₁ ++ x :: l₂ := by
  induction l₁ with
  | nil => simp [List.dropWhile_cons, hx]
  | cons a as ih =>
    by_cases h : p a = true
    · simpa [List.dropWhile_cons, h] using ih
    · simp [List.dropWhile_cons, h]

theorem trimChars_ne_nil {c : Char} (hc : isWS c = false) {l : List Char}
    (hm : c ∈ l) : trimChars l ≠ [] := by
  intro h
  unfold trimChars at h
  rw [List.reverse_eq_nil_iff, List.dropWhile_eq_nil_iff] at h
  have hmem : c ∈ l.dropWhile isWS := by
    rcases (List.mem_append.mp
        (by rw [List.takeWhile_append_dropWhile]; exact hm :
          c ∈ l.takeWhile isWS ++ l.dropWhile isWS)) with h1 | h1
    · exact absurd (List.mem_takeWhile_imp h1) (by simp [hc])
    · exact h1
  exact absurd (h c (List.mem_reverse.mpr hmem)) (by simp [hc])

theorem splitFirst_of_not_mem {c : Char} : ∀ {l : List Char}, c ∉ l →
    splitFirst c l = none := by
  intro l
  induction l with
  | nil => intro _; rfl
  | cons a as ih =>
    intro h
    have ha : ¬ a = c := fun e => h (e ▸ List.mem_cons_self a as)
    have has : c ∉ as := fun m => h (List.mem_cons_of_mem a m)
    simp [splitFirst, ha, ih has]

theorem splitFirst_append (c : Char) : ∀ (l₁ : List Char), c ∉ l₁ →
    ∀ l₂ : List Char, splitFirst c (l₁ ++ c :: l₂) = some (l₁, l₂) := by
  intro l₁
  induction l₁ with
  | nil => intro _ l₂; simp [splitFirst]
  | cons a as ih =>
    intro h l₂
    have ha : ¬ a = c := fun e => h (e ▸ List.mem_cons_self a as)
    have has : c ∉ as := fun m => h (List.mem_cons_of_mem a m)
    simp [splitFirst, ha, ih has]

theorem trimLeft_head_append {A R : List Char} {x : Char} (hx : isWS x = false)
    (hh : (trimLeft A).head? ≠ some '#') (hxh : x ≠ '#') :
    (trimLeft (A ++ x :: R)).head? ≠ some '#' := by
  unfold trimLeft at *
  rw [dropWhile_append_cons isWS x hx]
  cases hA : A.dropWhile isWS with
  | nil => simpa [hA] using fun e => hxh e
  | cons a as =>
    rw [hA] at hh
    simpa using hh

/-- C2: for every config file, `parseConfig` maps each well-formed line
`A : B - C` (first `:` and first `-` as delimiters, so `A` contains no `:`
and `B` no `-`) to `VehicleJob` with the three trimmed fields; a line with
no `:`, or with no `-` after the first `:`, is skipped with a warning and
never an error (`parseLine` is total); a blank line or a line whose first
non-whitespace character is `#` never yields a job; a file with zero valid
lines parses to the empty list; jobs are collected in file order. -/
theorem C2_parseConfig_contract :
    (∀ A B C : List Char, ':' ∉ A → '-' ∉ B →
        (trimLeft A).head? ≠ some '#' →
        parseLine (A ++ ':' :: (B ++ '-' :: C)) =
          .job ⟨trimChars A, trimChars B, trimChars C⟩) ∧
    (∀ l : List Char, trimChars l ≠ [] → (trimLeft l).head? ≠ some '#' →
        ':' ∉ l → parseLine l = .warned) ∧
    (∀ A D : List Char, ':' ∉ A → '-' ∉ D →
        (trimLeft A).head? ≠ some '#' →
        parseLine (A ++ ':' :: D) = .warned) ∧
    (∀ l : List Char, trimChars l = [] ∨ (trimLeft l).head? = some '#' →
        parseLine l = .skipped) ∧
    (∀ ls : List (List Char), (∀ l ∈ ls, ∀ j, parseLine l ≠ .job j) →
        parseConfig ls = []) ∧
    (∀ ls₁ ls₂ : List (List Char),
        parseConfig (ls₁ ++ ls₂) = parseConfig ls₁ ++ parseConfig ls₂) := by
  refine ⟨?_, ?_, ?_, ?_, ?_, ?_⟩
  · intro A B C hA hB hh
    have hne : trimChars (A ++ ':' :: (B ++ '-' :: C)) ≠ [] :=
      trimChars_ne_nil (c := ':') (by decide) (by simp)
    have hhead := trimLeft_head_append (x := ':') (R := B ++ '-' :: C)
      (by decide) hh (by decide)
    rw [parseLine, if_neg hne, if_neg hhead]
    simp only [splitFirst_append ':' A hA (B ++ '-' :: C),
      splitFirst_append '-' B hB C]
  · intro l h1 h2 h3
    rw [parseLine, if_neg h1, if_neg h2, splitFirst_of_not_mem h3]
  · intro A D hA hD hh
    have hne : trimChars (A ++ ':' :: D) ≠ [] :=
      trimChars_ne_nil (c := ':') (by decide) (by simp)
    have hhead := trimLeft_head_append (x := ':') (R := D)
      (by decide) hh (by decide)
    rw [parseLine, if_neg hne, if_neg hhead]
    simp only [splitFirst_append ':' A hA D, splitFirst_of_not_mem hD]
  · intro l h
    by_cases h1 : trimChars l = []
    · rw [parseLine, if_pos h1]
    · rcases h with h | h
      · exact absurd h h1
      · rw [parseLine, if_neg h1, if_pos h]
  · intro ls h
    rw [parseConfig, List.filterMap_eq_nil_iff]
    intro l hl
    cases hp : parseLine l with
    | job j => exact absurd hp (h l hl j)
    | skipped => simp [hp]
    | warned => simp [hp]
  · intro ls₁ ls₂
    exact List.filterMap_append ls₁ ls₂ _

/-- Witness for C2: the contract evaluated at concrete lines — a
well-formed line, a line with no colon, a line with no dash, a comment
line, and a file whose only line is malformed. -/
theorem C2_parseConfig_contract_witness :
    parseLine (['d'] ++ ':' :: ([' ', 'b'] ++ '-' :: ['c'])) =
      .job ⟨trimChars ['d'], trimChars [' ', 'b'], trimChars ['c']⟩ ∧
    parseLine ['n', 'o'] = .warned ∧
    parseLine (['a'] ++ ':' :: ['n']) = .warned ∧
    parseLine [' ', '#', 'x'] = .skipped ∧
    parseConfig [['n', 'o']] = [] := by
  refine ⟨C2_parseConfig_contract.1 ['d'] [' ', 'b'] ['c']
      (by decide) (by decide) (by decide),
    C2_parseConfig_contract.2.1 ['n', 'o'] (by decide) (by decide) (by decide),
    C2_parseConfig_contract.2.2.1 ['a'] ['n'] (by decide) (by decide) (by decide),
    C2_parseConfig_contract.2.2.2.1 [' ', '#', 'x'] (Or.inr (by decide)),
    C2_parseConfig_contract.2.2.2.2.1 [['n', 'o']] ?_⟩
  intro l hl j h
  rw [List.mem_singleton] at hl
  subst hl
  rw [show parseLine ['n', 'o'] = LineResult.warned from by decide] at h
  exact LineResult.noConfusion h

/-- C5: with no explicit username/password arguments and the
`AUTERION_USERNAME` / `AUTERION_PASSWORD` environment variables unset,
spider construction fails with the fatal `ValueError` — the error result
carries no `SpiderState`, so `webdriver.Chrome()` (which follows the check
in `__init__`) never runs and no browser session exists.  Credentials are
required non-empty: empty strings from either source also fail.  With
non-empty credentials construction succeeds and only then is the driver
initialized. -/
theorem C5_missing_credentials_fatal :
    spiderInit none none none none =
      .error "Username and password must be provided" ∧
    spiderInit (some "") (some "") none none =
      .error "Username and password must be provided" ∧
    spiderInit none none (some "") (some "") =
      .error "Username and password must be provided" ∧
    spiderInit (some "u@x") none none none =
      .error "Username and password must be provided" ∧
    spiderInit none none (some "u@x") (some "pw") =
      .ok ⟨"u@x", "pw", true⟩ := by
  refine ⟨rfl, ?_, ?_, ?_, ?_⟩ <;> rfl

/-- C9: an explicitly passed empty-string credential does not take
precedence: `username or os.environ.get(..)` discards an empty argument,
so empty explicit arguments behave exactly like absent ones and silently
fall back to the environment; construction fails only when the fallback is
also empty or unset. -/
theorem C9_empty_arg_falls_back_to_env :
    (∀ b : Option String, pyOr (some "") b = b) ∧
    (∀ envU envP : Option String,
        spiderInit (some "") (some "") envU envP =
          spiderInit none none envU envP) ∧
    spiderInit (some "") (some "pw") (some "u@x") none =
      .ok ⟨"u@x", "pw", true⟩ ∧
    spiderInit (some "") (some "") (some "u@x") (some "pw") =
      .ok ⟨"u@x", "pw", true⟩ ∧
    spiderInit (some "") (some "") none none =
      .error "Username and password must be provided" := by
  refine ⟨fun b => rfl, fun envU envP => rfl, rfl, rfl, rfl⟩

theorem firstMatch_eq_none {α : Type} (probe : Locator → List α) :
    ∀ L : List Locator, (∀ s ∈ L, probe s = []) →
      firstMatch probe L = none := by
  intro L
  induction L with
  | nil => intro _; rfl
  | cons s rest ih =>
    intro h
    have hs : probe s = [] := h s (List.mem_cons_self s rest)
    have hr := ih fun x hx => h x (List.mem_cons_of_mem s hx)
    simp [firstMatch, hs, hr]

theorem firstMatch_append {α : Type} (probe : Locator → List α) :
    ∀ (pre : List Locator), (∀ x ∈ pre, probe x = []) →
      ∀ (s : Locator) (post : List Locator) (e : α) (es : List α),
        probe s = e :: es →
        firstMatch probe (pre ++ s :: post) = some e := by
  intro pre
  induction pre with
  | nil =>
    intro _ s post e es hs
    simp [firstMatch, hs]
  | cons x xs ih =>
    intro h s post e es hs
    have hx : probe x = [] := h x (List.mem_cons_self x xs)
    have := ih (fun y hy => h y (List.mem_cons_of_mem x hy)) s post e es hs
    simp [firstMatch, hx, this]

/-- C8: in the FindLoginButton step the ordered locator list
`loginButtonSelectors` is probed in order; the first locator whose probe
yields at least one element wins and its first element is the result; when
every locator yields no element, the step fails with the error naming the
login button. -/
theorem C8_login_button_probe :
    (∀ (α : Type) (probe : Locator → List α),
        (∀ s ∈ loginButtonSelectors, probe s = []) →
        findLoginButton probe = .error "Could not find login button") ∧
    (∀ (α : Type) (probe : Locator → List α)
        (pre : List Locator) (s : Locator) (post : List Locator)
        (e : α) (es : List α),
        loginButtonSelectors = pre ++ s :: post →
        (∀ x ∈ pre, probe x = []) →
        probe s = e :: es →
        findLoginButton probe = .ok e) := by
  constructor
  · intro α probe h
    rw [findLoginButton, firstMatch_eq_none probe loginButtonSelectors h]
  · intro α probe pre s post e es hsel hpre hs
    rw [findLoginButton, hsel, firstMatch_append probe pre hpre s post e es hs]

/-- Witness for C8: a probe finding nothing anywhere yields the
login-button error; a probe that finds elements only for the second
locator (xpath) yields that locator's first element. -/
theorem C8_login_button_probe_witness :
    findLoginButton (fun _ : Locator => ([] : List Nat)) =
      .error "Could not find login button" ∧
    findLoginButton
        (fun l : Locator =>
          if l.kind = LocatorKind.xpath then [7, 8] else ([] : List Nat)) =
      .ok 7 := by
  constructor
  · exact C8_login_button_probe.1 Nat _ (by decide)
  · exact C8_login_button_probe.2 Nat _
      [⟨.css, "button.button-primary"⟩]
      ⟨.xpath, "//button[contains(text(), 'Login')]"⟩
      [⟨.xpath, "//button[normalize-space()='Login']"⟩]
      7 [8] rfl (by decide) (by decide)

theorem scanLogTab_eq_find? : ∀ g : List UiElem,
    scanLogTab g = g.find? isLogTab := by
  intro g
  induction g with
  | nil => rfl
  | cons e es ih =>
    by_cases h : isLogTab e = true
    · simp [scanLogTab, h]
    · simp [scanLogTab, h, ih, List.find?_cons_of_neg]

/-- C7: an element is eligible as the log tab exactly when it is displayed
and its lowercased text contains `"log"` while containing none of the
false-positive substrings `"login"`, `"logout"`, `"catalog"`; working
through the candidate selectors' element lists in order, the chosen element
is the first eligible one overall. -/
theorem C7_log_tab_selection :
    (∀ e : UiElem,
        isLogTab e = true ↔
          (e.displayed = true ∧
           containsSub "log".toList (lowerChars e.text) = true ∧
           containsSub "login".toList (lowerChars e.text) = false ∧
           containsSub "logout".toList (lowerChars e.text) = false ∧
           containsSub "catalog".toList (lowerChars e.text) = false)) ∧
    (∀ groups : List (List UiElem),
        findLogTab groups = groups.flatten.find? isLogTab) := by
  constructor
  · intro e
    simp only [isLogTab, Bool.and_eq_true, Bool.not_eq_true',
      Bool.or_eq_false_iff, and_assoc]
  · intro groups
    induction groups with
    | nil => rfl
    | cons g gs ih =>
      rw [findLogTab, scanLogTab_eq_find?, List.flatten_cons,
        List.find?_append, ih]
      cases g.find? isLogTab <;> rfl

/-- C4: `navigate_to_vehicles` is best-effort over its element steps
(3 = vehicle link, 4 = All Flights, 5 = flight row, 6 = log tab,
7 = View Analytics, 8 = Download log): whenever the target element of step
N is not found (whatever the probes of later steps would have returned),
the recorded warning for step N is logged, no step beyond N is attempted,
and the method still reaches its footer — `keep_browser_open` set and
sentinel written — returning normally instead of raising.  Step 2 (the
search box) only warns and continues when missing. -/
theorem C4_navigation_best_effort :
    (∀ s b4 b5 b6 b7 b8 : Bool,
        navigateToVehicles ⟨s, false, b4, b5, b6, b7, b8⟩ =
          ⟨[2, 3], (if s then [] else [wSearch]) ++ [wVehicleLink],
            true, true⟩) ∧
    (∀ s b5 b6 b7 b8 : Bool,
        navigateToVehicles ⟨s, true, false, b5, b6, b7, b8⟩ =
          ⟨[2, 3, 4], (if s then [] else [wSearch]) ++ [wAllFlights],
            true, true⟩) ∧
    (∀ s b6 b7 b8 : Bool,
        navigateToVehicles ⟨s, true, true, false, b6, b7, b8⟩ =
          ⟨[2, 3, 4, 5], (if s then [] else [wSearch]) ++ [wFlightRow],
            true, true⟩) ∧
    (∀ s b7 b8 : Bool,
        navigateToVehicles ⟨s, true, true, true, false, b7, b8⟩ =
          ⟨[2, 3, 4, 5, 6], (if s then [] else [wSearch]) ++ [wLogTab],
            true, true⟩) ∧
    (∀ s b8 : Bool,
        navigateToVehicles ⟨s, true, true, true, true, false, b8⟩ =
          ⟨[2, 3, 4, 5, 6, 7], (if s then [] else [wSearch]) ++ [wAnalytics],
            true, true⟩) ∧
    (∀ s : Bool,
        navigateToVehicles ⟨s, true, true, true, true, true, false⟩ =
          ⟨[2, 3, 4, 5, 6, 7, 8],
            (if s then [] else [wSearch]) ++ [wDownload], true, true⟩) ∧
    (∀ s : Bool,
        navigateToVehicles ⟨s, true, true, true, true, true, true⟩ =
          ⟨[2, 3, 4, 5, 6, 7, 8], (if s then [] else [wSearch]) ++ [],
            true, true⟩) := by
  refine ⟨?_, ?_, ?_, ?_, ?_, ?_, ?_⟩ <;>
    (intros; rfl)

theorem isPrefixOf_self_append (l t : List Char) :
    l.isPrefixOf (l ++ t) = true := by
  induction l with
  | nil => simp [List.isPrefixOf]
  | cons c cs ih => simp [List.isPrefixOf, ih]

theorem containsSub_mid (p a b : List Char) :
    containsSub p (a ++ (p ++ b)) = true := by
  induction a with
  | nil =>
    cases p with
    | nil =>
      cases b with
      | nil => rfl
      | cons x xs => simp [containsSub, List.isPrefixOf]
    | cons c cs =>
      simp only [List.nil_append, List.cons_append, containsSub,
        Bool.or_eq_true]
      exact Or.inl (isPrefixOf_self_append (c :: cs) b)
  | cons x xs ih =>
    simp only [List.cons_append, containsSub, Bool.or_eq_true]
    exact Or.inr ih

/-- C1 counterexample: a run in which `perform_login` returns `True`
(no raise anywhere), yet `start_requests` does not invoke
`navigate_to_logs` — refuting the claim that every successful login is
followed by the cookie-reusing Log Retrieval path. -/
theorem C1_counterexample :
    (fullRun ⟨false, false, "https://suite.auterion.com/vehicles"⟩).loginReturnedTrue
      = true ∧
    (fullRun ⟨false, false, "https://suite.auterion.com/vehicles"⟩).navigateToLogsInvoked
      = false :=
  ⟨rfl, rfl⟩

/-- C1 amended: `start_requests` never invokes `navigate_to_logs`: when
`perform_login` returns `True` it sets `keep_browser_open`, has already run
`navigate_to_vehicles`, and returns an empty request list; the
`navigate_to_logs` call sits on the branch requiring a falsy login result,
which `perform_login` (return `True` or raise) never produces. -/
theorem C1_amended_no_log_retrieval :
    ∀ (lr nr : Bool) (url : String),
      (fullRun ⟨lr, nr, url⟩).navigateToLogsInvoked = false ∧
      ((fullRun ⟨lr, nr, url⟩).loginReturnedTrue = true →
        (fullRun ⟨lr, nr, url⟩).keepBrowserOpen = true ∧
        (fullRun ⟨lr, nr, url⟩).requests = [] ∧
        (fullRun ⟨lr, nr, url⟩).navigateToVehiclesInvoked = true) := by
  intro lr nr url
  cases lr <;> cases nr <;>
    exact ⟨rfl, fun h => by first
      | exact ⟨rfl, rfl, rfl⟩
      | exact Bool.noConfusion h⟩

/-- Witness for C1 amended: the successful-login run, with the implication
hypothesis discharged. -/
theorem C1_amended_no_log_retrieval_witness :
    (fullRun ⟨false, false, "u"⟩).navigateToLogsInvoked = false ∧
    (fullRun ⟨false, false, "u"⟩).keepBrowserOpen = true ∧
    (fullRun ⟨false, false, "u"⟩).requests = [] ∧
    (fullRun ⟨false, false, "u"⟩).navigateToVehiclesInvoked = true :=
  ⟨(C1_amended_no_log_retrieval false false "u").1,
   (C1_amended_no_log_retrieval false false "u").2 rfl⟩

/-- C10: after every successful login `keep_browser_open` is set (no
configuration input exists that could prevent it), so the `closed` handler
does not quit the browser after a successful run; the browser is quit at
shutdown exactly when login did not succeed. -/
theorem C10_keep_browser_open_invariant :
    ∀ (lr nr : Bool) (url : String),
      ((fullRun ⟨lr, nr, url⟩).loginReturnedTrue = true →
        (fullRun ⟨lr, nr, url⟩).keepBrowserOpen = true ∧
        (fullRun ⟨lr, nr, url⟩).browserQuit = false) ∧
      ((fullRun ⟨lr, nr, url⟩).loginReturnedTrue = false →
        (fullRun ⟨lr, nr, url⟩).browserQuit = true) := by
  intro lr nr url
  cases lr <;> cases nr <;>
    exact ⟨fun h => by first
        | exact ⟨rfl, rfl⟩
        | exact Bool.noConfusion h,
      fun h => by first
        | rfl
        | exact Bool.noConfusion h⟩

/-- Witness for C10: both implications discharged at concrete runs — a
successful login keeps the browser, a raising login quits it. -/
theorem C10_keep_browser_open_invariant_witness :
    ((fullRun ⟨false, true, "u"⟩).keepBrowserOpen = true ∧
     (fullRun ⟨false, true, "u"⟩).browserQuit = false) ∧
    (fullRun ⟨true, false, "u"⟩).browserQuit = true :=
  ⟨(C10_keep_browser_open_invariant false true "u").1 rfl,
   (C10_keep_browser_open_invariant true false "u").2 rfl⟩

/-- C6 counterexample: in a successful run the browser is intentionally
left open and the sentinel recording the session URL is written — but at
the bare path `browser_open.txt` in the working directory, which is not
inside the log directory (the directory of `logs/scraper.log`), refuting
the claimed location. -/
theorem C6_counterexample :
    (fullRun ⟨false, false, "https://suite.auterion.com/flights"⟩).keepBrowserOpen
      = true ∧
    (fullRun ⟨false, false, "https://suite.auterion.com/flights"⟩).writes =
      [(sentinelPath, sentinelNav "https://suite.auterion.com/flights"),
       (sentinelPath, sentinelSR "https://suite.auterion.com/flights")] ∧
    startsWithPath "logs/" sentinelPath = false ∧
    startsWithPath "logs/" runLogPath = true := by
  exact ⟨rfl, rfl, by decide, by decide⟩

/-- C6 amended: whenever the browser is intentionally left open, a sentinel
text file recording the final session URL is written — at
`browser_open.txt` in the process working directory, not inside the log
directory that holds the run log and screenshots. -/
theorem C6_amended_sentinel_in_cwd :
    ∀ (lr nr : Bool) (url : String),
      (fullRun ⟨lr, nr, url⟩).keepBrowserOpen = true →
      ((sentinelPath, sentinelSR url) ∈ (fullRun ⟨lr, nr, url⟩).writes ∧
       containsSubStr url (sentinelSR url) = true ∧
       startsWithPath "logs/" sentinelPath = false) := by
  intro lr nr url h
  refine ⟨?_, ?_, by decide⟩
  · cases lr <;> cases nr <;> first
      | exact Bool.noConfusion h
      | simp [fullRun, closedRun, startRequestsRun, performLoginRun]
  · show containsSub url.toList (sentinelSR url).toList = true
    have : (sentinelSR url).toList =
        "Browser remains open with session at: ".toList ++
          (url.toList ++
            ("\n" ++
              ("Script has finished execution, but browser should remain open.\n" ++
                "Close browser manually when finished examining.")).toList) := by
      simp [sentinelSR, String.toList, String.append_assoc]
    rw [this]
    exact containsSub_mid _ _ _

/-- Witness for C6 amended: the successful run at a concrete URL. -/
theorem C6_amended_sentinel_in_cwd_witness :
    (sentinelPath, sentinelSR "https://x/y") ∈
      (fullRun ⟨false, false, "https://x/y"⟩).writes ∧
    containsSubStr "https://x/y" (sentinelSR "https://x/y") = true ∧
    startsWithPath "logs/" sentinelPath = false :=
  C6_amended_sentinel_in_cwd false false "https://x/y" rfl

/-- C3 counterexample: a logs page whose two anchors carry the same
`.log` href.  `parse_logs_page` iterates every occurrence returned by
`getall()`, so two `SavedFile` records are produced for one distinct
href — refuting "exactly one SavedFile per distinct discovered href". -/
theorem C3_counterexample :
    ((fetchLogs (fun _ l => l) (fun _ => [0, 1, 2])
        ⟨"https://suite.auterion.com/logs", ["a.log", "a.log"]⟩).1).length = 2 ∧
    ((discoveredLogLinks
        ⟨"https://suite.auterion.com/logs", ["a.log", "a.log"]⟩).dedup).length
      = 1 := by
  exact ⟨rfl, by decide⟩

theorem fetchStep_foldl (urljoin : String → String → String)
    (fetch : String → List Nat) (pageUrl : String) :
    ∀ (links : List String) (acc : List SavedFile × List (String × List Nat)),
      links.foldl (fetchStep urljoin fetch pageUrl) acc =
        (acc.1 ++ links.map (savedFileFor urljoin fetch pageUrl),
         acc.2 ++ links.map (writeFor urljoin fetch pageUrl)) := by
  intro links
  induction links with
  | nil => intro acc; simp
  | cons h t ih =>
    intro acc
    rw [List.foldl_cons, ih]
    simp [fetchStep, savedFileFor, writeFor]

/-- C3 amended: `fetchLogs` returns exactly one `SavedFile` per discovered
`.log` href occurrence (duplicate hrefs yield duplicate records), in
discovery order; each link not already starting with `"http"` is resolved
against the page URL before fetching; each record's `size` equals the exact
byte length of the fetched body, and that body is what is written at
`logs/downloaded/<basename-of-url>`. -/
theorem C3_amended_one_per_occurrence :
    ∀ (urljoin : String → String → String) (fetch : String → List Nat)
      (p : LogsPage),
      (fetchLogs urljoin fetch p).1 =
        (discoveredLogLinks p).map (savedFileFor urljoin fetch p.url) ∧
      (fetchLogs urljoin fetch p).2 =
        (discoveredLogLinks p).map (writeFor urljoin fetch p.url) ∧
      (fetchLogs urljoin fetch p).1.map SavedFile.size =
        (discoveredLogLinks p).map
          (fun h => (fetch (resolveLink urljoin p.url h)).length) ∧
      (fetchLogs urljoin fetch p).2 =
        (fetchLogs urljoin fetch p).1.map
          (fun sf => (sf.path, fetch sf.url)) := by
  intro urljoin fetch p
  have hfold := fetchStep_foldl urljoin fetch p.url (discoveredLogLinks p)
    ([], [])
  have h1 : (fetchLogs urljoin fetch p).1 =
      (discoveredLogLinks p).map (savedFileFor urljoin fetch p.url) := by
    rw [fetchLogs, hfold]; simp
  have h2 : (fetchLogs urljoin fetch p).2 =
      (discoveredLogLinks p).map (writeFor urljoin fetch p.url) := by
    rw [fetchLogs, hfold]; simp
  refine ⟨h1, h2, ?_, ?_⟩
  · rw [h1, List.map_map]
    refine List.map_congr_left fun h _ => ?_
    simp [savedFileFor, saveLogFile, Function.comp]
  · rw [h1, h2, List.map_map]
    refine List.map_congr_left fun h _ => ?_
    simp [writeFor, savedFileFor, saveLogFile, Function.comp]

end UlogScraper
